import Mathlib

/-!
Shallow embedding of the authentication backend (auth controller, user
schema, redis token cache, cookie handling) and proofs of the spec claims.

Conventions of the embedding:
* JWTs are modelled as records carrying the signed payload (`userId`), the
  identity of the signing secret, issue/expiry times in seconds, and a flag
  `sigValid` that is true for tokens produced by `jwtSign` and false for
  tampered tokens (whose signature no longer checks out).
* The redis cache is an association list from user id (the key
  `refresh_token:<id>` is determined by the id) to the stored token plus the
  TTL passed with `EX`.
* Express responses are modelled as a record of status code, JSON body
  (association list of key/value pairs; a field whose value is `undefined`
  in JS is dropped by `res.json`, which the body-building code reflects),
  cookies set and cookies cleared.
* Collaborator calls that go over the wire (mongoose `findOne`/`create`,
  redis `set`/`get`/`del`, `comparePassword`) are a record of functions
  returning `Except String` — `.error e` models the call throwing an
  exception whose `.message` is `e`.  `realDeps` is the non-throwing
  instantiation.  `jwt.verify` is in-process; its throwing behaviour is the
  pure `jwtVerify` with the library's error messages.
-/

/-- JSON values appearing in response bodies. -/
inductive JVal where
  | str : String → JVal
  | oid : Nat → JVal
deriving DecidableEq, Repr

/-- A JSON object body: ordered association list of fields (fields holding
JS `undefined` are omitted, as `res.json` omits them). -/
abbrev JBody := List (String × JVal)

/-- Environment configuration (`process.env`): the two signing secrets and
whether `NODE_ENV === "production"`. Secrets are identified by number. -/
structure Env where
  accessTokenSecret : Nat
  refreshTokenSecret : Nat
  nodeEnvProduction : Bool
deriving DecidableEq, Repr

/-- A JWT: payload `userId`, which secret signed it, issued-at and expiry
times (seconds), and whether the signature is still intact (`false` models
a tampered token). -/
structure Jwt where
  userId : Nat
  secret : Nat
  iat : Nat
  exp : Nat
  sigValid : Bool
deriving DecidableEq, Repr

/-- Errors thrown by `jwt.verify`. -/
inductive JwtError where
  | invalidSignature
  | expired
deriving DecidableEq, Repr

/-- The `.message` of the exceptions the jsonwebtoken library throws. -/
def JwtError.message : JwtError → String
  | .invalidSignature => "invalid signature"
  | .expired => "jwt expired"

/-- `jwt.sign({ userId }, secret, { expiresIn })` at current time `now`. -/
def jwtSign (payloadUserId secret now lifetimeSec : Nat) : Jwt :=
  { userId := payloadUserId, secret := secret, iat := now,
    exp := now + lifetimeSec, sigValid := true }

/-- `jwt.verify(token, secret)` at current time `now`: throws on a bad or
tampered signature or on an expired token, else returns the decoded
payload's `userId`. -/
def jwtVerify (t : Jwt) (secret now : Nat) : Except JwtError Nat :=
  if t.sigValid = false ∨ t.secret ≠ secret then .error .invalidSignature
  else if t.exp ≤ now then .error .expired
  else .ok t.userId

/-- `jwt.verify` with the thrown error replaced by its message string, the
form in which the controllers' catch blocks observe it. -/
def jwtVerifyE (t : Jwt) (secret now : Nat) : Except String Nat :=
  match jwtVerify t secret now with
  | .ok u => .ok u
  | .error e => .error e.message

/-- `generateTokens(userId)`: access token valid 15 minutes, refresh token
valid 7 days, signed with the two distinct secrets. -/
def generateTokens (env : Env) (now userId : Nat) : Jwt × Jwt :=
  (jwtSign userId env.accessTokenSecret now (15 * 60),
   jwtSign userId env.refreshTokenSecret now (7 * 24 * 60 * 60))

/-- One redis entry: key `refresh_token:<key>`, the stored token, and the
TTL seconds given with `EX`. -/
structure CacheEntry where
  key : Nat
  value : Jwt
  ttl : Nat
deriving DecidableEq, Repr

/-- The redis token cache. -/
abbrev Cache := List CacheEntry

/-- `redis.set(key, v, "EX", ttl)`: upsert, overwriting any prior entry. -/
def redisSet (c : Cache) (k : Nat) (v : Jwt) (ttl : Nat) : Cache :=
  { key := k, value := v, ttl := ttl } :: c.filter (fun e => e.key ≠ k)

/-- `redis.get(key)`: the stored value, or none. -/
def redisGet (c : Cache) (k : Nat) : Option Jwt :=
  (c.find? (fun e => e.key == k)).map CacheEntry.value

/-- `redis.del(key)`. -/
def redisDel (c : Cache) (k : Nat) : Cache :=
  c.filter (fun e => e.key ≠ k)

/-- Cookie attributes passed to `res.cookie`. -/
structure CookieOpts where
  httpOnly : Bool
  secure : Bool
  sameSiteStrict : Bool
  maxAgeMs : Nat
deriving DecidableEq, Repr

/-- One `res.cookie(name, value, opts)` call. -/
structure SetCookie where
  name : String
  value : Jwt
  opts : CookieOpts
deriving DecidableEq, Repr

/-- The access-token cookie as set by `setCookies` and by `refreshToken`:
HTTP-only, secure in production, same-site strict, max-age 15 minutes. -/
def accessCookie (env : Env) (t : Jwt) : SetCookie :=
  { name := "accessToken", value := t,
    opts := { httpOnly := true, secure := env.nodeEnvProduction,
              sameSiteStrict := true, maxAgeMs := 15 * 60 * 1000 } }

/-- The refresh-token cookie as set by `setCookies`: HTTP-only, secure in
production, same-site strict, max-age 7 days. -/
def refreshCookie (env : Env) (t : Jwt) : SetCookie :=
  { name := "refreshToken", value := t,
    opts := { httpOnly := true, secure := env.nodeEnvProduction,
              sameSiteStrict := true, maxAgeMs := 7 * 24 * 60 * 60 * 1000 } }

/-- `setCookies(res, accessToken, refreshToken)`: the two cookie writes, in
order. -/
def setCookies (env : Env) (accessToken refreshTok : Jwt) : List SetCookie :=
  [accessCookie env accessToken, refreshCookie env refreshTok]

/-- A user document.  The schema (`userSchema`) declares exactly the paths
`name`, `email`, `password`; there is no `role` path. -/
structure UserDoc where
  _id : Nat
  name : String
  email : String
  password : String
deriving DecidableEq, Repr

/-- Accessing `user.role` on a document whose schema has no `role` path
yields JS `undefined`, modelled as `none`. -/
def UserDoc.role (_ : UserDoc) : Option String := none

/-- The users collection. -/
abbrev DB := List UserDoc

/-- Modelled from the spec: password hashing is the Credential Store's
responsibility ("password (stored as a verifiable hash)"); the hashing
code itself (model pre-save hook) is not among the provided sources.  Any
injective function works for the claims below. -/
def hashPassword (p : String) : String := "hashed:" ++ p

/-- The collaborator calls the controllers await.  Each returns
`Except String` so that a throwing collaborator (`.error e`, where `e` is
the exception message) can be expressed; state-changing calls return the
new state on success. -/
structure Deps where
  userFindOne : DB → String → Except String (Option UserDoc)
  userCreate : DB → Nat → String → String → String → Except String (UserDoc × DB)
  cacheSet : Cache → Nat → Jwt → Nat → Except String Cache
  cacheGet : Cache → Nat → Except String (Option Jwt)
  cacheDel : Cache → Nat → Except String Cache
  pwCompare : UserDoc → String → Except String Bool

/-- The collaborators when nothing throws: `User.findOne` matches on email,
`User.create` assigns the fresh id and stores the hashed password, the
redis calls act on the association list, and `comparePassword` (modelled
from the spec: the Credential Store verifies a candidate password against
the stored hash; its code is not among the provided sources) checks the
hash. -/
def realDeps : Deps where
  userFindOne := fun db e => .ok (db.find? (fun u => u.email == e))
  userCreate := fun db i n e p =>
    let u : UserDoc := { _id := i, name := n, email := e, password := hashPassword p }
    .ok (u, db ++ [u])
  cacheSet := fun c k v ttl => .ok (redisSet c k v ttl)
  cacheGet := fun c k => .ok (redisGet c k)
  cacheDel := fun c k => .ok (redisDel c k)
  pwCompare := fun u p => .ok (u.password == hashPassword p)

/-- `storeRefreshToken(userId, refreshToken)`: redis `set` with a 7-day
`EX` expiration. -/
def storeRefreshToken (d : Deps) (c : Cache) (userId : Nat) (t : Jwt) :
    Except String Cache :=
  d.cacheSet c userId t (7 * 24 * 60 * 60)

/-- An inbound request: JSON body fields, the `refreshToken` cookie if the
client sent one, and the middleware-attached `req.user` (for
`getProfile`). -/
structure Req where
  bodyName : String
  bodyEmail : String
  bodyPassword : String
  cookieRefreshToken : Option Jwt
  reqUser : Option UserDoc
deriving DecidableEq, Repr

/-- The observable response: status (200 when `res.json` is reached with no
`res.status`), JSON body, cookies set and cookies cleared, in call
order. -/
structure Res where
  status : Nat
  body : JBody
  cookiesSet : List SetCookie
  cookiesCleared : List String
deriving DecidableEq, Repr

/-- Server-side state the controllers read and write: the users collection
and the redis cache. -/
structure ServerState where
  db : DB
  cache : Cache
deriving DecidableEq, Repr

/-- The catch block of `signup`/`login`:
`res.status(500).json({ message: error.message })`. -/
def err500message (e : String) : Res :=
  { status := 500, body := [("message", JVal.str e)],
    cookiesSet := [], cookiesCleared := [] }

/-- The catch block of `logout`/`refreshToken`/`getProfile`:
`res.status(500).json({ message: "Server error", error: error.message })`. -/
def err500server (e : String) : Res :=
  { status := 500,
    body := [("message", JVal.str "Server error"), ("error", JVal.str e)],
    cookiesSet := [], cookiesCleared := [] }

/-- An optional JSON field: present when the JS value is defined, omitted
by `res.json` when it is `undefined`. -/
def jsonOpt (k : String) : Option JVal → JBody
  | none => []
  | some v => [(k, v)]

/-- The `signup` controller.  `freshId` is the object id mongoose assigns
to the created document.  Returns the response and the server state after
the request (a collaborator throwing leaves the state reached so far). -/
def signup (d : Deps) (env : Env) (now freshId : Nat) (s : ServerState)
    (req : Req) : Res × ServerState :=
  match d.userFindOne s.db req.bodyEmail with
  | .error e => (err500message e, s)
  | .ok (some _) =>
    ({ status := 400, body := [("message", JVal.str "User already exists")],
       cookiesSet := [], cookiesCleared := [] }, s)
  | .ok none =>
    match d.userCreate s.db freshId req.bodyName req.bodyEmail req.bodyPassword with
    | .error e => (err500message e, s)
    | .ok (user, db2) =>
      let (accessToken, refreshTok) := generateTokens env now user._id
      match storeRefreshToken d s.cache user._id refreshTok with
      | .error e => (err500message e, { db := db2, cache := s.cache })
      | .ok cache2 =>
        ({ status := 201,
           body := [("_id", JVal.oid user._id), ("name", JVal.str user.name),
                    ("email", JVal.str user.email)]
                   ++ jsonOpt "role" (user.role.map JVal.str),
           cookiesSet := setCookies env accessToken refreshTok,
           cookiesCleared := [] },
         { db := db2, cache := cache2 })

/-- The `login` controller.  A missing user and a wrong password fall into
the same `else` branch. -/
def login (d : Deps) (env : Env) (now : Nat) (s : ServerState)
    (req : Req) : Res × ServerState :=
  match d.userFindOne s.db req.bodyEmail with
  | .error e => (err500message e, s)
  | .ok none =>
    ({ status := 400,
       body := [("message", JVal.str "Invalid email or password")],
       cookiesSet := [], cookiesCleared := [] }, s)
  | .ok (some user) =>
    match d.pwCompare user req.bodyPassword with
    | .error e => (err500message e, s)
    | .ok false =>
      ({ status := 400,
         body := [("message", JVal.str "Invalid email or password")],
         cookiesSet := [], cookiesCleared := [] }, s)
    | .ok true =>
      let (accessToken, refreshTok) := generateTokens env now user._id
      match storeRefreshToken d s.cache user._id refreshTok with
      | .error e => (err500message e, s)
      | .ok cache2 =>
        ({ status := 200,
           body := [("_id", JVal.oid user._id), ("name", JVal.str user.name),
                    ("email", JVal.str user.email)]
                   ++ jsonOpt "role" (user.role.map JVal.str)
                   ++ [("message", JVal.str "Login successful")],
           cookiesSet := setCookies env accessToken refreshTok,
           cookiesCleared := [] },
         { db := s.db, cache := cache2 })

/-- The `logout` controller: if a refresh cookie is present it is verified
(a throw here falls through to the catch block) and the cached token
deleted; the cookie clearing happens after that block. -/
def logout (d : Deps) (env : Env) (now : Nat) (s : ServerState)
    (req : Req) : Res × ServerState :=
  match req.cookieRefreshToken with
  | none =>
    ({ status := 200, body := [("message", JVal.str "Logged out successfully")],
       cookiesSet := [], cookiesCleared := ["accessToken", "refreshToken"] }, s)
  | some rt =>
    match jwtVerifyE rt env.refreshTokenSecret now with
    | .error e => (err500server e, s)
    | .ok decodedUserId =>
      match d.cacheDel s.cache decodedUserId with
      | .error e => (err500server e, s)
      | .ok cache2 =>
        ({ status := 200,
           body := [("message", JVal.str "Logged out successfully")],
           cookiesSet := [], cookiesCleared := ["accessToken", "refreshToken"] },
         { db := s.db, cache := cache2 })

/-- The `refreshToken` controller: 401 when no cookie; `jwt.verify` (a
throw falls to the catch block); 401 when the cached token does not equal
the presented one; else a new 15-minute access token is signed and only
the access cookie is set. -/
def refreshToken (d : Deps) (env : Env) (now : Nat) (s : ServerState)
    (req : Req) : Res × ServerState :=
  match req.cookieRefreshToken with
  | none =>
    ({ status := 401, body := [("message", JVal.str "No refresh token provided")],
       cookiesSet := [], cookiesCleared := [] }, s)
  | some rt =>
    match jwtVerifyE rt env.refreshTokenSecret now with
    | .error e => (err500server e, s)
    | .ok decodedUserId =>
      match d.cacheGet s.cache decodedUserId with
      | .error e => (err500server e, s)
      | .ok storedToken =>
        if storedToken ≠ some rt then
          ({ status := 401,
             body := [("message", JVal.str "Invalid refresh token")],
             cookiesSet := [], cookiesCleared := [] }, s)
        else
          let accessToken := jwtSign decodedUserId env.accessTokenSecret now (15 * 60)
          ({ status := 200,
             body := [("message", JVal.str "Token refreshed successfully")],
             cookiesSet := [accessCookie env accessToken],
             cookiesCleared := [] }, s)

/-- `res.json(req.user)` serialises the whole document. -/
def userDocJson (u : UserDoc) : JBody :=
  [("_id", JVal.oid u._id), ("name", JVal.str u.name),
   ("email", JVal.str u.email), ("password", JVal.str u.password)]

/-- The `getProfile` controller. -/
def getProfile (s : ServerState) (req : Req) : Res × ServerState :=
  match req.reqUser with
  | none =>
    ({ status := 401, body := [("message", JVal.str "Not logged in")],
       cookiesSet := [], cookiesCleared := [] }, s)
  | some u =>
    ({ status := 200, body := userDocJson u,
       cookiesSet := [], cookiesCleared := [] }, s)

/-! ### Concrete fixtures used by witnesses and counterexamples -/

/-- A concrete environment: secrets 1 and 2, not production. -/
def envEx : Env :=
  { accessTokenSecret := 1, refreshTokenSecret := 2, nodeEnvProduction := false }

/-- The empty server state. -/
def emptyState : ServerState := { db := [], cache := [] }

/-- The signup/login request of the spec scenario. -/
def aliceReq : Req :=
  { bodyName := "Alice", bodyEmail := "a@x.com", bodyPassword := "secret1",
    cookieRefreshToken := none, reqUser := none }

/-- Alice's user document as `User.create` produces it with id 1. -/
def alice : UserDoc :=
  { _id := 1, name := "Alice", email := "a@x.com",
    password := hashPassword "secret1" }

/-- A refresh token for user 7 issued at time 0, hence expired 7 days
later. -/
def rtExpired : Jwt := jwtSign 7 2 0 (7 * 24 * 60 * 60)

/-- A tampered token: its signature no longer verifies. -/
def rtTampered : Jwt :=
  { userId := 7, secret := 2, iat := 0, exp := 1000000000, sigValid := false }

/-- A refresh request carrying the expired token. -/
def reqExpired : Req :=
  { bodyName := "", bodyEmail := "", bodyPassword := "",
    cookieRefreshToken := some rtExpired, reqUser := none }

/-- A request carrying the tampered token. -/
def reqTampered : Req :=
  { bodyName := "", bodyEmail := "", bodyPassword := "",
    cookieRefreshToken := some rtTampered, reqUser := none }

/-! ### C1 -/

/-- C1 counterexample: a refresh request whose cookie token is expired is
answered with status 500 and body `message: "Server error", error: "jwt
expired"` — not with 401/`Invalid refresh token` as the claim states. -/
theorem c1_counterexample :
    (refreshToken realDeps envEx 1000000 emptyState reqExpired).1.status = 500 ∧
    (refreshToken realDeps envEx 1000000 emptyState reqExpired).1.status ≠ 401 ∧
    (refreshToken realDeps envEx 1000000 emptyState reqExpired).1.body =
      [("message", JVal.str "Server error"), ("error", JVal.str "jwt expired")] := by
  decide

/-- C1 (amended): when the refresh cookie's token is expired or tampered,
`jwt.verify` throws, the catch-all handles it, and the operation fails with
status 500 and body `message: "Server error", error: <jwt error message>`;
the 401 `Invalid refresh token` answer is reserved for tokens that verify
but mismatch the cache. -/
theorem c1_bad_refresh_token_is_500 (d : Deps) (env : Env) (now : Nat)
    (s : ServerState) (req : Req) (rt : Jwt) (err : JwtError)
    (hc : req.cookieRefreshToken = some rt)
    (hv : jwtVerify rt env.refreshTokenSecret now = .error err) :
    (refreshToken d env now s req).1 = err500server err.message := by
  simp [refreshToken, jwtVerifyE, hc, hv]

/-- C1 witness at the expired-token request. -/
theorem c1_bad_refresh_token_is_500_witness :
    (refreshToken realDeps envEx 1000000 emptyState reqExpired).1 =
      err500server "jwt expired" :=
  c1_bad_refresh_token_is_500 realDeps envEx 1000000 emptyState reqExpired
    rtExpired .expired rfl rfl

/-! ### C2 -/

/-- The success response of `logout`: both cookies cleared. -/
def logoutSuccess : Res :=
  { status := 200, body := [("message", JVal.str "Logged out successfully")],
    cookiesSet := [], cookiesCleared := ["accessToken", "refreshToken"] }

/-- C2 counterexample: a logout request whose refresh cookie is tampered
returns 500 and clears no cookie, so a token-verification failure does
block the cookie clearing. -/
theorem c2_counterexample :
    (logout realDeps envEx 100 emptyState reqTampered).1.status = 500 ∧
    (logout realDeps envEx 100 emptyState reqTampered).1.cookiesCleared = [] := by
  decide

/-- C2 (amended): `logout` clears both cookies and returns success when no
refresh cookie is present, and when the cookie's token verifies; but when
verification of a present cookie fails, the thrown error reaches the
catch-all and the response is 500 with no cookie cleared. -/
theorem c2_logout_clearing (env : Env) (now : Nat) (s : ServerState) (req : Req) :
    (req.cookieRefreshToken = none →
       (logout realDeps env now s req).1 = logoutSuccess) ∧
    (∀ rt u, req.cookieRefreshToken = some rt →
       jwtVerify rt env.refreshTokenSecret now = .ok u →
       (logout realDeps env now s req).1 = logoutSuccess) ∧
    (∀ rt e, req.cookieRefreshToken = some rt →
       jwtVerify rt env.refreshTokenSecret now = .error e →
       (logout realDeps env now s req).1 = err500server e.message ∧
       (logout realDeps env now s req).1.cookiesCleared = []) := by
  refine ⟨fun hn => ?_, fun rt u hc hv => ?_, fun rt e hc hv => ?_⟩
  · simp [logout, hn, logoutSuccess]
  · simp [logout, jwtVerifyE, realDeps, hc, hv, logoutSuccess]
  · constructor <;> simp [logout, jwtVerifyE, hc, hv, err500server]

/-- C2 witness: logout with no cookie succeeds and clears both cookies;
logout with the tampered cookie returns 500 and clears none. -/
theorem c2_logout_clearing_witness :
    (logout realDeps envEx 100 emptyState aliceReq).1 = logoutSuccess ∧
    (logout realDeps envEx 100 emptyState reqTampered).1 =
      err500server "invalid signature" ∧
    (logout realDeps envEx 100 emptyState reqTampered).1.cookiesCleared = [] :=
  ⟨(c2_logout_clearing envEx 100 emptyState aliceReq).1 rfl,
   ((c2_logout_clearing envEx 100 emptyState reqTampered).2.2 rtTampered
      .invalidSignature rfl rfl).1,
   ((c2_logout_clearing envEx 100 emptyState reqTampered).2.2 rtTampered
      .invalidSignature rfl rfl).2⟩

/-! ### C4 -/

/-- C4: signup with an email that already exists fails with the conflict
message at status 400, sets no cookies, clears none, and leaves the whole
server state (users and token cache) unchanged. -/
theorem c4_signup_conflict (d : Deps) (env : Env) (now freshId : Nat)
    (s : ServerState) (req : Req) (u : UserDoc)
    (h : d.userFindOne s.db req.bodyEmail = .ok (some u)) :
    signup d env now freshId s req =
      ({ status := 400, body := [("message", JVal.str "User already exists")],
         cookiesSet := [], cookiesCleared := [] }, s) := by
  simp [signup, h]

/-- C4 witness: signing up Alice again against a database already holding
her document. -/
theorem c4_signup_conflict_witness :
    signup realDeps envEx 0 5 { db := [alice], cache := [] } aliceReq =
      ({ status := 400, body := [("message", JVal.str "User already exists")],
         cookiesSet := [], cookiesCleared := [] },
       { db := [alice], cache := [] }) :=
  c4_signup_conflict realDeps envEx 0 5 { db := [alice], cache := [] }
    aliceReq alice rfl

/-! ### C3 -/

/-- The 401 response of `refreshToken` for a token that does not match the
cached one. -/
def invalidRefreshRes : Res :=
  { status := 401, body := [("message", JVal.str "Invalid refresh token")],
    cookiesSet := [], cookiesCleared := [] }

/-- Overwriting a key in the cache makes the new value the only one
retrievable for that key. -/
theorem redisGet_redisSet_self (c : Cache) (k : Nat) (v : Jwt) (ttl : Nat) :
    redisGet (redisSet c k v ttl) k = some v := by
  simp [redisGet, redisSet]

/-- A refresh request whose token verifies but differs from what the cache
holds for the decoded user id is refused with 401. -/
theorem refreshToken_stale (env : Env) (now2 : Nat) (s2 : ServerState)
    (req2 : Req) (old : Jwt) (uid : Nat)
    (hc : req2.cookieRefreshToken = some old)
    (hv : jwtVerify old env.refreshTokenSecret now2 = .ok uid)
    (hne : redisGet s2.cache uid ≠ some old) :
    (refreshToken realDeps env now2 s2 req2).1 = invalidRefreshRes := by
  simp [refreshToken, jwtVerifyE, realDeps, hc, hv, invalidRefreshRes, hne]

/-- C3: at most one refresh token per user is honored.  A successful login
(first conjunct) or signup (second conjunct) overwrites the cached refresh
token for the user with the newly issued one, and any previously issued,
still-verifying refresh token for the same user that differs from the new
one is then refused by `refreshToken` with 401 `Invalid refresh token`. -/
theorem c3_one_live_refresh_token (env : Env) (now now2 freshId : Nat)
    (s : ServerState) (req req2 : Req) (old : Jwt) :
    (∀ u : UserDoc, s.db.find? (fun x => x.email == req.bodyEmail) = some u →
       (u.password == hashPassword req.bodyPassword) = true →
       redisGet (login realDeps env now s req).2.cache u._id =
         some (generateTokens env now u._id).2 ∧
       (jwtVerify old env.refreshTokenSecret now2 = .ok u._id →
        old ≠ (generateTokens env now u._id).2 →
        req2.cookieRefreshToken = some old →
        (refreshToken realDeps env now2 (login realDeps env now s req).2 req2).1 =
          invalidRefreshRes)) ∧
    (s.db.find? (fun x => x.email == req.bodyEmail) = none →
       redisGet (signup realDeps env now freshId s req).2.cache freshId =
         some (generateTokens env now freshId).2 ∧
       (jwtVerify old env.refreshTokenSecret now2 = .ok freshId →
        old ≠ (generateTokens env now freshId).2 →
        req2.cookieRefreshToken = some old →
        (refreshToken realDeps env now2 (signup realDeps env now freshId s req).2 req2).1 =
          invalidRefreshRes)) := by
  constructor
  · intro u hFind hPw
    have hCache : (login realDeps env now s req).2.cache =
        redisSet s.cache u._id (generateTokens env now u._id).2 (7 * 24 * 60 * 60) := by
      simp [login, realDeps, hFind, hPw, storeRefreshToken, generateTokens]
    refine ⟨by rw [hCache]; exact redisGet_redisSet_self _ _ _ _, ?_⟩
    intro hOld hNe hc2
    have hGet : redisGet (login realDeps env now s req).2.cache u._id =
        some (generateTokens env now u._id).2 := by
      rw [hCache]; exact redisGet_redisSet_self _ _ _ _
    exact refreshToken_stale env now2 _ req2 old u._id hc2 hOld
      (by rw [hGet]; simpa using Ne.symm hNe)
  · intro hFind
    have hCache : (signup realDeps env now freshId s req).2.cache =
        redisSet s.cache freshId (generateTokens env now freshId).2 (7 * 24 * 60 * 60) := by
      simp [signup, realDeps, hFind, storeRefreshToken, generateTokens]
    refine ⟨by rw [hCache]; exact redisGet_redisSet_self _ _ _ _, ?_⟩
    intro hOld hNe hc2
    have hGet : redisGet (signup realDeps env now freshId s req).2.cache freshId =
        some (generateTokens env now freshId).2 := by
      rw [hCache]; exact redisGet_redisSet_self _ _ _ _
    exact refreshToken_stale env now2 _ req2 old freshId hc2 hOld
      (by rw [hGet]; simpa using Ne.symm hNe)

/-- A previously issued refresh token for Alice: issued at time 0, valid
until 7 days later. -/
def oldAliceTok : Jwt := jwtSign 1 2 0 (7 * 24 * 60 * 60)

/-- Server state before re-login: Alice in the database, her old refresh
token cached. -/
def c3State : ServerState :=
  { db := [alice], cache := [{ key := 1, value := oldAliceTok, ttl := 7 * 24 * 60 * 60 }] }

/-- A refresh request carrying Alice's old token. -/
def c3RefreshReq : Req :=
  { bodyName := "", bodyEmail := "", bodyPassword := "",
    cookieRefreshToken := some oldAliceTok, reqUser := none }

/-- C3 witness: Alice logs in again at time 50; the cache then holds only
the new token, and her old, unexpired token is refused at time 100. -/
theorem c3_one_live_refresh_token_witness :
    redisGet (login realDeps envEx 50 c3State aliceReq).2.cache 1 =
      some (generateTokens envEx 50 1).2 ∧
    (refreshToken realDeps envEx 100 (login realDeps envEx 50 c3State aliceReq).2
        c3RefreshReq).1 = invalidRefreshRes := by
  have h := (c3_one_live_refresh_token envEx 50 100 9 c3State aliceReq
    c3RefreshReq oldAliceTok).1 alice rfl rfl
  exact ⟨h.1, h.2 rfl (by decide) rfl⟩

/-! ### C5 -/

/-- C5: the two login failure modes — unknown email, and known email with a
wrong password — produce byte-identical responses: same 400 status, same
`Invalid email or password` body, no cookies touched. -/
theorem c5_uniform_login_failure (env1 env2 : Env) (now1 now2 : Nat)
    (s1 s2 : ServerState) (req1 req2 : Req) (u : UserDoc)
    (h1 : s1.db.find? (fun x => x.email == req1.bodyEmail) = none)
    (h2 : s2.db.find? (fun x => x.email == req2.bodyEmail) = some u)
    (hp : (u.password == hashPassword req2.bodyPassword) = false) :
    (login realDeps env1 now1 s1 req1).1 = (login realDeps env2 now2 s2 req2).1 ∧
    (login realDeps env1 now1 s1 req1).1 =
      { status := 400, body := [("message", JVal.str "Invalid email or password")],
        cookiesSet := [], cookiesCleared := [] } := by
  constructor <;> simp [login, realDeps, h1, h2, hp]

/-- A login request for an email not in the database. -/
def unknownEmailReq : Req :=
  { bodyName := "", bodyEmail := "b@x.com", bodyPassword := "whatever",
    cookieRefreshToken := none, reqUser := none }

/-- A login request for Alice's email with the wrong password. -/
def wrongPasswordReq : Req :=
  { bodyName := "", bodyEmail := "a@x.com", bodyPassword := "wrong",
    cookieRefreshToken := none, reqUser := none }

/-- C5 witness: against a database holding only Alice, logging in as
`b@x.com` and logging in as Alice with password `wrong` answer
identically. -/
theorem c5_uniform_login_failure_witness :
    (login realDeps envEx 0 { db := [alice], cache := [] } unknownEmailReq).1 =
      (login realDeps envEx 7 { db := [alice], cache := [] } wrongPasswordReq).1 ∧
    (login realDeps envEx 0 { db := [alice], cache := [] } unknownEmailReq).1 =
      { status := 400, body := [("message", JVal.str "Invalid email or password")],
        cookiesSet := [], cookiesCleared := [] } :=
  c5_uniform_login_failure envEx envEx 0 7 { db := [alice], cache := [] }
    { db := [alice], cache := [] } unknownEmailReq wrongPasswordReq alice
    rfl rfl rfl

/-! ### C6 -/

/-- C6: a refresh request whose token verifies and equals the cached token
for the decoded user id issues only a new access token: the response sets
exactly the access cookie (carrying a fresh 15-minute token), clears
nothing, its body is only the confirmation message, and the server state —
in particular the cached refresh token — is unchanged. -/
theorem c6_refresh_frame (env : Env) (now : Nat) (s : ServerState)
    (req : Req) (rt : Jwt) (u : Nat)
    (hc : req.cookieRefreshToken = some rt)
    (hv : jwtVerify rt env.refreshTokenSecret now = .ok u)
    (hm : redisGet s.cache u = some rt) :
    (refreshToken realDeps env now s req).1 =
      { status := 200, body := [("message", JVal.str "Token refreshed successfully")],
        cookiesSet := [accessCookie env (jwtSign u env.accessTokenSecret now (15 * 60))],
        cookiesCleared := [] } ∧
    (refreshToken realDeps env now s req).2 = s := by
  constructor <;> simp [refreshToken, jwtVerifyE, realDeps, hc, hv, hm]

/-- C6 witness: Alice's cached token presented at time 100 yields a new
access cookie and leaves the state untouched. -/
theorem c6_refresh_frame_witness :
    (refreshToken realDeps envEx 100 c3State c3RefreshReq).1 =
      { status := 200, body := [("message", JVal.str "Token refreshed successfully")],
        cookiesSet := [accessCookie envEx (jwtSign 1 envEx.accessTokenSecret 100 (15 * 60))],
        cookiesCleared := [] } ∧
    (refreshToken realDeps envEx 100 c3State c3RefreshReq).2 = c3State :=
  c6_refresh_frame envEx 100 c3State c3RefreshReq oldAliceTok 1 rfl rfl rfl

/-! ### C7 -/

/-- C7 counterexample: the spec scenario signup("Alice","a@x.com","secret1")
answers 201, but the body has no `role` field at all (in particular not
`role: "user"`): the schema declares no `role` path, so `user.role` is
`undefined` and `res.json` drops it. -/
theorem c7_counterexample :
    (signup realDeps envEx 0 1 emptyState aliceReq).1.status = 201 ∧
    ((signup realDeps envEx 0 1 emptyState aliceReq).1.body.lookup "role") = none := by
  decide

/-- C7 (amended): a successful signup answers 201 with body
`(_id, name, email)` — the `role` field is omitted because the schema
defines no `role` path (so there is no `"user"` default); a successful
login answers with `(_id, name, email, message: "Login successful")`,
likewise without `role`. -/
theorem c7_success_bodies (env : Env) (now freshId : Nat) (s sl : ServerState)
    (req reql : Req) (u : UserDoc)
    (hs : s.db.find? (fun x => x.email == req.bodyEmail) = none)
    (hl : sl.db.find? (fun x => x.email == reql.bodyEmail) = some u)
    (hp : (u.password == hashPassword reql.bodyPassword) = true) :
    (signup realDeps env now freshId s req).1.status = 201 ∧
    (signup realDeps env now freshId s req).1.body =
      [("_id", JVal.oid freshId), ("name", JVal.str req.bodyName),
       ("email", JVal.str req.bodyEmail)] ∧
    (login realDeps env now sl reql).1.body =
      [("_id", JVal.oid u._id), ("name", JVal.str u.name),
       ("email", JVal.str u.email), ("message", JVal.str "Login successful")] := by
  refine ⟨?_, ?_, ?_⟩ <;>
    simp [signup, login, realDeps, hs, hl, hp, jsonOpt, UserDoc.role,
      storeRefreshToken]

/-- C7 witness: Alice's signup on an empty database and her login
afterwards. -/
theorem c7_success_bodies_witness :
    (signup realDeps envEx 0 1 emptyState aliceReq).1.status = 201 ∧
    (signup realDeps envEx 0 1 emptyState aliceReq).1.body =
      [("_id", JVal.oid 1), ("name", JVal.str "Alice"),
       ("email", JVal.str "a@x.com")] ∧
    (login realDeps envEx 0 { db := [alice], cache := [] } aliceReq).1.body =
      [("_id", JVal.oid 1), ("name", JVal.str "Alice"),
       ("email", JVal.str "a@x.com"), ("message", JVal.str "Login successful")] :=
  c7_success_bodies envEx 0 1 emptyState { db := [alice], cache := [] }
    aliceReq aliceReq alice rfl rfl rfl

/-! ### C8 -/

/-- A response is mapped: its status is one of the statuses the controllers
produce, and every non-2xx answer carries a `message` field. -/
def statusMapped (r : Res) : Prop :=
  (r.status = 200 ∨ r.status = 201 ∨ r.status = 400 ∨ r.status = 401 ∨
   r.status = 500) ∧
  (400 ≤ r.status → (r.body.lookup "message").isSome = true)

/-- C8: whatever the collaborators do — every pattern of throwing or
answering is a `Deps` value — each of the five controllers returns a
response (it is a total function), with a status from the fixed set and,
on every failure status, a `message` in the body: no collaborator failure
escapes unmapped. -/
theorem c8_failures_mapped (d : Deps) (env : Env) (now freshId : Nat)
    (s : ServerState) (req : Req) :
    statusMapped (signup d env now freshId s req).1 ∧
    statusMapped (login d env now s req).1 ∧
    statusMapped (logout d env now s req).1 ∧
    statusMapped (refreshToken d env now s req).1 ∧
    statusMapped (getProfile s req).1 := by
  refine ⟨?_, ?_, ?_, ?_, ?_⟩
  · unfold signup
    repeat' split
    all_goals simp [statusMapped, err500message, List.lookup]
  · unfold login
    repeat' split
    all_goals simp [statusMapped, err500message, List.lookup]
  · unfold logout
    repeat' split
    all_goals simp [statusMapped, err500server, List.lookup]
  · unfold refreshToken
    repeat' split
    all_goals simp [statusMapped, err500server, List.lookup]
  · unfold getProfile
    repeat' split
    all_goals simp [statusMapped, List.lookup]

/-- Collaborators that all throw with message `boom`. -/
def failDeps : Deps where
  userFindOne := fun _ _ => .error "boom"
  userCreate := fun _ _ _ _ _ => .error "boom"
  cacheSet := fun _ _ _ _ => .error "boom"
  cacheGet := fun _ _ => .error "boom"
  cacheDel := fun _ _ => .error "boom"
  pwCompare := fun _ _ => .error "boom"

/-- C8 witness: with every collaborator throwing, all five controllers
still answer with a mapped response. -/
theorem c8_failures_mapped_witness :
    statusMapped (signup failDeps envEx 0 1 emptyState aliceReq).1 ∧
    statusMapped (login failDeps envEx 0 emptyState aliceReq).1 ∧
    statusMapped (logout failDeps envEx 0 emptyState aliceReq).1 ∧
    statusMapped (refreshToken failDeps envEx 0 emptyState aliceReq).1 ∧
    statusMapped (getProfile emptyState aliceReq).1 :=
  c8_failures_mapped failDeps envEx 0 1 emptyState aliceReq

/-! ### C9 -/

/-- C9: the access token lives 15 minutes and the refresh token 7 days, and
`setCookies` writes the two cookies with max-ages of exactly those
lifetimes in milliseconds, both HTTP-only and same-site-strict, with the
`secure` attribute equal to the production flag. -/
theorem c9_lifetimes_and_cookies (env : Env) (now userId : Nat) :
    (generateTokens env now userId).1.exp - (generateTokens env now userId).1.iat =
      15 * 60 ∧
    (generateTokens env now userId).2.exp - (generateTokens env now userId).2.iat =
      7 * 24 * 60 * 60 ∧
    setCookies env (generateTokens env now userId).1 (generateTokens env now userId).2 =
      [{ name := "accessToken", value := (generateTokens env now userId).1,
         opts := { httpOnly := true, secure := env.nodeEnvProduction,
                   sameSiteStrict := true, maxAgeMs := 15 * 60 * 1000 } },
       { name := "refreshToken", value := (generateTokens env now userId).2,
         opts := { httpOnly := true, secure := env.nodeEnvProduction,
                   sameSiteStrict := true, maxAgeMs := 7 * 24 * 60 * 60 * 1000 } }] := by
  refine ⟨?_, ?_, rfl⟩ <;> simp [generateTokens, jwtSign]

/-! ### C10 -/

/-- C10: on every 500 path, the thrown exception's message string appears
verbatim in the JSON error body: as the `message` field for signup/login,
and as the `error` field (next to `message: "Server error"`) for
logout/refresh.  One conjunct per collaborator call site, each under the
hypotheses that make that site the throwing one. -/
theorem c10_error_messages_exposed (d : Deps) (env : Env) (now freshId : Nat)
    (s : ServerState) (req : Req) :
    (∀ e, d.userFindOne s.db req.bodyEmail = .error e →
       (signup d env now freshId s req).1 = err500message e ∧
       (login d env now s req).1 = err500message e) ∧
    (∀ e, d.userFindOne s.db req.bodyEmail = .ok none →
       d.userCreate s.db freshId req.bodyName req.bodyEmail req.bodyPassword =
         .error e →
       (signup d env now freshId s req).1 = err500message e) ∧
    (∀ e user db2, d.userFindOne s.db req.bodyEmail = .ok none →
       d.userCreate s.db freshId req.bodyName req.bodyEmail req.bodyPassword =
         .ok (user, db2) →
       d.cacheSet s.cache user._id (generateTokens env now user._id).2
         (7 * 24 * 60 * 60) = .error e →
       (signup d env now freshId s req).1 = err500message e) ∧
    (∀ e user, d.userFindOne s.db req.bodyEmail = .ok (some user) →
       d.pwCompare user req.bodyPassword = .error e →
       (login d env now s req).1 = err500message e) ∧
    (∀ e user, d.userFindOne s.db req.bodyEmail = .ok (some user) →
       d.pwCompare user req.bodyPassword = .ok true →
       d.cacheSet s.cache user._id (generateTokens env now user._id).2
         (7 * 24 * 60 * 60) = .error e →
       (login d env now s req).1 = err500message e) ∧
    (∀ e rt, req.cookieRefreshToken = some rt →
       jwtVerifyE rt env.refreshTokenSecret now = .error e →
       (logout d env now s req).1 = err500server e ∧
       (refreshToken d env now s req).1 = err500server e) ∧
    (∀ e rt u, req.cookieRefreshToken = some rt →
       jwtVerifyE rt env.refreshTokenSecret now = .ok u →
       d.cacheDel s.cache u = .error e →
       (logout d env now s req).1 = err500server e) ∧
    (∀ e rt u, req.cookieRefreshToken = some rt →
       jwtVerifyE rt env.refreshTokenSecret now = .ok u →
       d.cacheGet s.cache u = .error e →
       (refreshToken d env now s req).1 = err500server e) := by
  refine ⟨fun e h1 => ⟨?_, ?_⟩, fun e h1 h2 => ?_, fun e user db2 h1 h2 h3 => ?_,
    fun e user h1 h2 => ?_, fun e user h1 h2 h3 => ?_,
    fun e rt h1 h2 => ⟨?_, ?_⟩, fun e rt u h1 h2 h3 => ?_,
    fun e rt u h1 h2 h3 => ?_⟩ <;>
    simp [signup, login, logout, refreshToken, storeRefreshToken, generateTokens,
      h1] <;>
    simp_all [generateTokens]

/-- C10 witness: with every collaborator throwing `boom`, signup exposes
`boom` as the `message` field and logout as the `error` field. -/
theorem c10_error_messages_exposed_witness :
    (signup failDeps envEx 0 1 emptyState aliceReq).1 = err500message "boom" ∧
    (logout failDeps envEx 9 emptyState c3RefreshReq).1 = err500server "boom" :=
  ⟨((c10_error_messages_exposed failDeps envEx 0 1 emptyState aliceReq).1 "boom"
      rfl).1,
   (c10_error_messages_exposed failDeps envEx 9 0 emptyState c3RefreshReq).2.2.2.2.2.2.1
     "boom" oldAliceTok 1 rfl rfl rfl⟩
